import Mathlib

/-!
Verification development for the transportation-data ETL job (src/main.py).

The program is a single Python Cloud Function: an event-shape check on the
trigger request, a fixed sequence of per-column pandas cleaning rules on a
DataFrame of trip records, two per-row derived-value computations (delay and
average speed), a column reorder to a fixed 24-field schema, and two external
upload/load calls.

Shallow embedding choices:
  * a DataFrame cell is a `PyVal`: Python None / the pandas NaN missing
    marker, bool, int, float or str.  Python floats are modelled as exact
    rationals plus the special values inf, -inf and nan (`PyFloat`);
  * fallible operations (pandas astype coercions that raise, KeyError on a
    missing column) return `Except String`;
  * a DataFrame is a column-ordered association list from column name to the
    list of the cells of that column (`DFrame`); pandas assigns a column in place
    when the name exists and appends it at the end otherwise;
  * the two external collaborators (object storage, analytical table) are out
    of scope; the handler records which of the three external actions
    (extract, archive write, analytical load) were attempted.
-/

/-- Python float values: exact rational for finite floats, plus the three
IEEE special values.  Finite floats are modelled exactly (no binary
rounding). -/
inductive PyFloat where
  | finite (q : ℚ)
  | inf
  | ninf
  | nan
deriving DecidableEq

/-- A raw DataFrame cell / JSON scalar as Python sees it.
`PyVal.none` models a missing cell: Python None, or the NaN marker pandas
stores for an absent key. -/
inductive PyVal where
  | none
  | bool (b : Bool)
  | int (n : Int)
  | float (x : PyFloat)
  | str (s : String)
deriving DecidableEq

/-- pandas `isna`: None and float NaN count as missing (used by fillna). -/
def isNA (v : PyVal) : Bool :=
  match v with
  | PyVal.none => true
  | PyVal.float PyFloat.nan => true
  | _ => false

/-- pandas `Series.fillna`: replace a missing cell by the given value. -/
def fillna (v repl : PyVal) : PyVal :=
  if isNA v then repl else v

/-- Numeric value of a list of decimal digit characters. -/
def digitsVal (l : List Char) : Nat :=
  l.foldl (fun a c => a * 10 + (c.toNat - 48)) 0

/-- Split a character list at every occurrence of the separator (kernel
reducible replacement for String.splitOn on single-character separators). -/
def splitOnChar (c : Char) : List Char → List (List Char)
  | [] => [[]]
  | x :: xs =>
    match splitOnChar c xs with
    | [] => if x = c then [[], []] else [[x]]
    | y :: ys => if x = c then [] :: y :: ys else (x :: y) :: ys

/-- One `%H` or `%M` field of `datetime.strptime`: one or two decimal
digits whose value is below the bound (24 for hours, 60 for minutes). -/
def parseTimeField (s : List Char) (bound : Nat) : Option Nat :=
  if 1 ≤ s.length ∧ s.length ≤ 2 ∧ s.all Char.isDigit then
    let v := digitsVal s
    if v < bound then some v else Option.none
  else Option.none

/-- `datetime.strptime(s, "%H:%M").time()` as minutes since midnight:
exactly one colon, a 1-2 digit hour below 24, a 1-2 digit minute below 60,
and nothing else (strptime rejects unconverted trailing data). -/
def parseHHMM (s : String) : Option Nat :=
  match splitOnChar ':' s.data with
  | [h, m] =>
    match parseTimeField h 24, parseTimeField m 60 with
    | some hv, some mv => some (hv * 60 + mv)
    | _, _ => Option.none
  | _ => Option.none

/-- `calculate_delay` (src/main.py lines 149-171).  Both time arguments are
raw cells; the travel time is an `Int` because the pipeline casts the
`tiempo_viaje_minutos` column with `astype(int)` (line 127) before this
function is applied (line 174).  Returns `Option.none` where the Python
function returns None: non-string or empty time arguments (the guard), and
strptime failure (the caught ValueError). -/
def calculate_delay (scheduled_str actual_str : PyVal) (travel_time_min : Int) : Option Int :=
  match scheduled_str, actual_str with
  | PyVal.str s, PyVal.str a =>
    if s.data.isEmpty ∨ a.data.isEmpty then Option.none
    else
      match parseHHMM s, parseHHMM a with
      | some sm, some am =>
        -- dummy-date combine; +1 day when actual < scheduled (line 163)
        let amAdj : Int := if am < sm then (am : Int) + 1440 else (am : Int)
        let calculated_travel_time : Int := amAdj - (sm : Int)
        let delay : Int := calculated_travel_time - travel_time_min
        some (if delay > 0 then delay else 0)
      | _, _ => Option.none
  | _, _ => Option.none

/-- A cell passes the guard of `calculate_delay` and strptime: a non-empty string
that parses as HH:MM. -/
def validTimeCell (v : PyVal) : Bool :=
  match v with
  | PyVal.str s => !s.data.isEmpty && (parseHHMM s).isSome
  | _ => false

example : calculate_delay (PyVal.str "23:30") (PyVal.str "00:15") 45 = some 0 := by decide
example : calculate_delay (PyVal.str "08:00") (PyVal.str "09:10") 50 = some 20 := by decide
example : calculate_delay (PyVal.str "25:00") (PyVal.str "09:10") 50 = Option.none := by decide
example : calculate_delay PyVal.none (PyVal.str "09:10") 50 = Option.none := by decide

lemma parseHHMM_nonempty (s : String) (m : Nat) (h : parseHHMM s = some m) :
    s.data.isEmpty = false := by
  cases hd : s.data with
  | nil =>
    unfold parseHHMM at h
    rw [hd] at h
    simp [splitOnChar] at h
  | cons c cs => simp

/-- C1: for records whose scheduled-departure and actual-arrival cells are
non-empty valid HH:MM strings, the delay is the span in whole minutes from
scheduled departure to actual arrival on a common reference date (arrival
moved to the next day when its time-of-day is numerically earlier than
departure) minus the stated travel time, clamped below at 0. -/
theorem C1_retraso_formula (s a : String) (t : Int) (sm am : Nat)
    (hs : parseHHMM s = some sm) (ha : parseHHMM a = some am) :
    calculate_delay (PyVal.str s) (PyVal.str a) t =
      some (max 0 ((if am < sm then (am : Int) + 1440 else (am : Int)) - (sm : Int) - t)) := by
  simp only [calculate_delay, parseHHMM_nonempty s sm hs, parseHHMM_nonempty a am ha,
    Bool.false_eq_true, or_self, if_false, hs, ha]
  congr 1
  split_ifs <;> omega

/-- C1 witness: the two concrete examples from the specification.
Scheduled 08:00, actual 09:10, travel 50 gives delay 20; scheduled 23:30,
actual 00:15 (crossing midnight), travel 45 gives delay 0. -/
theorem C1_retraso_formula_witness :
    calculate_delay (PyVal.str "08:00") (PyVal.str "09:10") 50 = some 20 ∧
    calculate_delay (PyVal.str "23:30") (PyVal.str "00:15") 45 = some 0 := by
  constructor
  · have h := C1_retraso_formula "08:00" "09:10" 50 480 550 (by decide) (by decide)
    rw [h]; decide
  · have h := C1_retraso_formula "23:30" "00:15" 45 1410 15 (by decide) (by decide)
    rw [h]; decide

/-- C5: whenever either time cell is absent, not a string, empty, or not a
valid HH:MM time string (the only exception sources reachable in the
pipeline, where the travel time is already an integer), the delay result is
absent (None), not zero; the Python function catches the error and returns
None instead of raising, so the batch continues. -/
theorem C5_invalid_time_gives_none (v w : PyVal) (t : Int)
    (h : validTimeCell v = false ∨ validTimeCell w = false) :
    calculate_delay v w t = Option.none := by
  cases v with
  | str s =>
    cases w with
    | str a =>
      simp only [calculate_delay]
      by_cases hs : s.data.isEmpty
      · simp [hs]
      · by_cases ha : a.data.isEmpty
        · simp [ha]
        · simp only [hs, ha, Bool.false_eq_true, or_self, if_false]
          cases hps : parseHHMM s with
          | none => cases parseHHMM a <;> rfl
          | some sm =>
            cases hpa : parseHHMM a with
            | none => rfl
            | some am =>
              exfalso
              rcases h with h | h <;> simp [validTimeCell, hs, ha, hps, hpa] at h
    | none => rfl
    | bool b => rfl
    | int n => rfl
    | float x => rfl
  | none => cases w <;> rfl
  | bool b => cases w <;> rfl
  | int n => cases w <;> rfl
  | float x => cases w <;> rfl

/-- C5 witness: a missing scheduled time (NaN cell) and a malformed actual
time both give an absent delay. -/
theorem C5_invalid_time_gives_none_witness :
    calculate_delay PyVal.none (PyVal.str "09:10") 50 = Option.none ∧
    calculate_delay (PyVal.str "08:00") (PyVal.str "9h10") 50 = Option.none := by
  constructor
  · exact C5_invalid_time_gives_none PyVal.none (PyVal.str "09:10") 50 (Or.inl (by decide))
  · exact C5_invalid_time_gives_none (PyVal.str "08:00") (PyVal.str "9h10") 50 (Or.inr (by decide))

/-- Division of a Python float by a positive finite float (the only shape
used by the speed formula, whose divisor is travel_time_minutes / 60 with
travel_time_minutes > 0): finite values divide exactly, the special values
propagate. -/
def pfDivPos (d : PyFloat) (q : ℚ) : PyFloat :=
  match d with
  | PyFloat.finite a => PyFloat.finite (a / q)
  | PyFloat.inf => PyFloat.inf
  | PyFloat.ninf => PyFloat.ninf
  | PyFloat.nan => PyFloat.nan

/-- The `velocidad_media_kmh` cell (src/main.py lines 181-187): the row-wise
lambda computes distancia_km / (tiempo_viaje_minutos / 60) when the travel
time is positive and 0 otherwise, and lines 186-187 then replace positive or
negative infinity and NaN by the pandas missing value NA.  The result is
therefore either an exact finite value (`some`) or absent (`Option.none`). -/
def velocidad_media (d : PyFloat) (t : Int) : Option ℚ :=
  let raw : PyFloat := if t > 0 then pfDivPos d ((t : ℚ) / 60) else PyFloat.finite 0
  match raw with
  | PyFloat.finite q => some q
  | _ => Option.none

/-- C2: the average speed is distancia_km / (tiempo_viaje_minutos / 60) when
the travel time is positive and 0 otherwise, and the stored value is never
positive/negative infinity nor NaN: exactly those outcomes are normalized to
absent (NA). -/
theorem C2_velocidad_media (d : PyFloat) (t : Int) :
    ((0 < t → ∀ q : ℚ, d = PyFloat.finite q →
        velocidad_media d t = some (q / ((t : ℚ) / 60))) ∧
     (¬ 0 < t → velocidad_media d t = some 0) ∧
     (velocidad_media d t = Option.none ↔
        (0 < t ∧ (d = PyFloat.inf ∨ d = PyFloat.ninf ∨ d = PyFloat.nan)))) := by
  refine ⟨?_, ?_, ?_⟩
  · intro ht q hd
    subst hd
    simp [velocidad_media, pfDivPos, ht]
  · intro ht
    simp [velocidad_media, ht]
  · constructor
    · intro h
      by_cases ht : 0 < t
      · refine ⟨ht, ?_⟩
        cases d <;> simp [velocidad_media, pfDivPos, ht] at h ⊢
      · simp [velocidad_media, ht] at h
    · rintro ⟨ht, hd⟩
      rcases hd with hd | hd | hd <;> subst hd <;> simp [velocidad_media, pfDivPos, ht]

/-- C2 witness: distance 120 with travel time 60 gives 120.0; distance 100
with travel time 0 gives 0; an infinite division anomaly is normalized to
absent. -/
theorem C2_velocidad_media_witness :
    velocidad_media (PyFloat.finite 120) 60 = some 120 ∧
    velocidad_media (PyFloat.finite 100) 0 = some 0 ∧
    velocidad_media PyFloat.inf 60 = Option.none := by
  refine ⟨?_, ?_, ?_⟩
  · have h := (C2_velocidad_media (PyFloat.finite 120) 60).1 (by norm_num) 120 rfl
    rw [h]; norm_num
  · exact (C2_velocidad_media (PyFloat.finite 100) 0).2.1 (by norm_num)
  · exact (C2_velocidad_media PyFloat.inf 60).2.2.mpr ⟨by norm_num, Or.inl rfl⟩

/-- Whitespace stripped by the Python int()/float() string conversion. -/
def isPySpace (c : Char) : Bool :=
  c = ' ' ∨ c = '\t' ∨ c = '\n' ∨ c = '\r' ∨ c = '\x0b' ∨ c = '\x0c'

/-- Strip leading and trailing whitespace from a character list. -/
def trimChars (l : List Char) : List Char :=
  ((l.dropWhile isPySpace).reverse.dropWhile isPySpace).reverse

/-- Python `int(s)` on a string: optional sign then a non-empty run of
decimal digits, surrounding whitespace allowed (digit-group underscores are
not modelled; no claim exercises them). -/
def pyIntOfString (s : String) : Option Int :=
  match trimChars s.data with
  | '+' :: ds =>
    if ds ≠ [] ∧ ds.all Char.isDigit then some (digitsVal ds) else Option.none
  | '-' :: ds =>
    if ds ≠ [] ∧ ds.all Char.isDigit then some (-(digitsVal ds : Int)) else Option.none
  | ds =>
    if ds ≠ [] ∧ ds.all Char.isDigit then some (digitsVal ds) else Option.none

/-- Unsigned decimal mantissa: digits, optionally a point and more digits,
with at least one digit overall. -/
def parseUnsignedDec (l : List Char) : Option ℚ :=
  let ip := l.takeWhile Char.isDigit
  match l.dropWhile Char.isDigit with
  | [] => if ip = [] then Option.none else some (digitsVal ip : ℚ)
  | '.' :: fp =>
    if fp.all Char.isDigit ∧ ¬(ip = [] ∧ fp = []) then
      some ((digitsVal ip : ℚ) + (digitsVal fp : ℚ) / (10 : ℚ) ^ fp.length)
    else Option.none
  | _ => Option.none

/-- Exponent part after the `e`: optional sign then non-empty digits. -/
def parseExpPart : List Char → Option Int
  | '+' :: ds =>
    if ds ≠ [] ∧ ds.all Char.isDigit then some (digitsVal ds) else Option.none
  | '-' :: ds =>
    if ds ≠ [] ∧ ds.all Char.isDigit then some (-(digitsVal ds : Int)) else Option.none
  | ds =>
    if ds ≠ [] ∧ ds.all Char.isDigit then some (digitsVal ds) else Option.none

/-- Decimal literal with optional exponent, as accepted by Python float(). -/
def parseDecMant (l : List Char) : Option ℚ :=
  let m := l.takeWhile (fun c => !(c = 'e' ∨ c = 'E'))
  match l.dropWhile (fun c => !(c = 'e' ∨ c = 'E')) with
  | [] => parseUnsignedDec m
  | _ :: es =>
    match parseUnsignedDec m, parseExpPart es with
    | some q, some e => some (q * (10 : ℚ) ^ e)
    | _, _ => Option.none

/-- Python `float(s)` on a string: stripped, optionally signed, either a
special word (inf / infinity / nan, case-insensitive) or a decimal literal.
The value is kept as an exact rational. -/
def pyFloatOfString (s : String) : Option PyFloat :=
  match trimChars s.data with
  | [] => Option.none
  | l =>
    let sgnNeg : Bool := match l with | '-' :: _ => true | _ => false
    let body : List Char := match l with
      | '+' :: cs => cs
      | '-' :: cs => cs
      | cs => cs
    let low := body.map Char.toLower
    if low = "inf".data ∨ low = "infinity".data then
      some (if sgnNeg then PyFloat.ninf else PyFloat.inf)
    else if low = "nan".data then some PyFloat.nan
    else
      match parseDecMant body with
      | some q => some (PyFloat.finite (if sgnNeg then -q else q))
      | _ => Option.none

/-- Truncation toward zero, the behaviour of Python int(float) and of numpy
float-to-int casts. -/
def truncRat (q : ℚ) : Int :=
  if 0 ≤ q then q.floor else -((-q).floor)

/-- pandas `astype(int)` on one object-column cell: ints pass through, bools
become 0/1, finite floats truncate toward zero, non-finite floats and None
raise, strings must be integer literals (ValueError otherwise). -/
def astypeInt (v : PyVal) : Except String Int :=
  match v with
  | PyVal.int n => Except.ok n
  | PyVal.bool b => Except.ok (if b then 1 else 0)
  | PyVal.float (PyFloat.finite q) => Except.ok (truncRat q)
  | PyVal.float _ => Except.error "Cannot convert non-finite values (NA or inf) to integer"
  | PyVal.none => Except.error "Cannot convert non-finite values (NA or inf) to integer"
  | PyVal.str s =>
    match pyIntOfString s with
    | some n => Except.ok n
    | _ => Except.error ("invalid literal for int() with base 10: " ++ s)

/-- pandas `astype(float)` on one cell: None becomes NaN, strings go through
float() (ValueError on failure). -/
def astypeFloat (v : PyVal) : Except String PyFloat :=
  match v with
  | PyVal.float x => Except.ok x
  | PyVal.int n => Except.ok (PyFloat.finite (n : ℚ))
  | PyVal.bool b => Except.ok (PyFloat.finite (if b then 1 else 0))
  | PyVal.none => Except.ok PyFloat.nan
  | PyVal.str s =>
    match pyFloatOfString s with
    | some x => Except.ok x
    | _ => Except.error ("could not convert string to float: " ++ s)

/-- pandas `astype(bool)`: Python truthiness, with NaN truthy (a pandas
gotcha) and None falsy. -/
def astypeBool (v : PyVal) : Bool :=
  match v with
  | PyVal.none => false
  | PyVal.bool b => b
  | PyVal.int n => n ≠ 0
  | PyVal.float (PyFloat.finite q) => q ≠ 0
  | PyVal.float _ => true
  | PyVal.str s => !s.data.isEmpty

/-- `pd.to_numeric(_, errors="coerce")` on one cell: numbers pass through,
bools become 0/1, numeric strings parse (exactly), everything else becomes
NaN. -/
def toNumeric (v : PyVal) : PyVal :=
  match v with
  | PyVal.none => PyVal.float PyFloat.nan
  | PyVal.bool b => PyVal.int (if b then 1 else 0)
  | PyVal.int n => PyVal.int n
  | PyVal.float x => PyVal.float x
  | PyVal.str s =>
    match pyIntOfString s with
    | some n => PyVal.int n
    | _ =>
      match pyFloatOfString s with
      | some x => PyVal.float x
      | _ => PyVal.float PyFloat.nan

/-- pandas `Series.clip(lo, hi)` on an integer. -/
def clipInt (lo hi n : Int) : Int :=
  max lo (min hi n)

example : pyFloatOfString "12.5" = some (PyFloat.finite (25 / 2)) := by
  with_unfolding_all decide
example : pyFloatOfString " -3e2 " = some (PyFloat.finite (-300)) := by
  with_unfolding_all decide
example : pyFloatOfString "inf" = some PyFloat.inf := by decide
example : pyFloatOfString "abc" = Option.none := by decide
example : pyIntOfString " 40 " = some 40 := by decide
example : pyIntOfString "3.7" = Option.none := by decide
example : truncRat (37 / 10) = 3 := by with_unfolding_all decide
example : truncRat (-37 / 10) = -3 := by with_unfolding_all decide

/-- Python str() of a float value with terminating decimal expansion (every
genuine Python float is dyadic, so its expansion terminates; the final
fallback branch is unreachable for such values).  In the exact-rational
model this repr round-trips with the float parser. -/
def floatRepr (q : ℚ) : String :=
  if q.den = 1 then toString q.num ++ ".0"
  else
    match (List.range 40).find? (fun k => (q * (10 : ℚ) ^ (k + 1)).den = 1) with
    | some k =>
      let scaled := (q * (10 : ℚ) ^ (k + 1)).num
      let sgn := if scaled < 0 then "-" else ""
      let ds := Nat.repr scaled.natAbs
      let ds := if ds.length < k + 2 then
        String.mk (List.replicate (k + 2 - ds.length) '0') ++ ds else ds
      sgn ++ String.mk (ds.data.take (ds.length - (k + 1))) ++ "." ++
        String.mk (ds.data.drop (ds.length - (k + 1)))
    | _ => toString q.num ++ "/" ++ toString q.den

/-- pandas `astype(str)` on one cell: Python str() of the value, with the
missing marker NaN printing as "nan". -/
def pyStrOf (v : PyVal) : String :=
  match v with
  | PyVal.str s => s
  | PyVal.int n => toString n
  | PyVal.bool b => if b then "True" else "False"
  | PyVal.none => "nan"
  | PyVal.float PyFloat.inf => "inf"
  | PyVal.float PyFloat.ninf => "-inf"
  | PyVal.float PyFloat.nan => "nan"
  | PyVal.float (PyFloat.finite q) => floatRepr q

/-- Python str.title() on ASCII text: a letter is uppercased when the
previous character is not a letter and lowercased otherwise.  (Unicode
cased letters beyond ASCII are not modelled; no claim exercises them.) -/
def titleCharsAux : Bool → List Char → List Char
  | _, [] => []
  | prev, c :: cs =>
    if c.isAlpha then
      (if prev then c.toLower else c.toUpper) :: titleCharsAux true cs
    else c :: titleCharsAux false cs

/-- pandas `.str.title()` of a string. -/
def pyTitle (s : String) : String :=
  String.mk (titleCharsAux false s.data)

/-- The fixed country alias table (src/main.py lines 132-137). -/
def country_mapping : List (String × String) :=
  [("España", "España"), ("ESPAÑA", "España"), ("ES", "España"),
   ("Portugal", "Portugal"), ("PT", "Portugal"),
   ("Marruecos", "Marruecos"), ("MARRUECOS", "Marruecos"), ("MAR", "Marruecos"),
   ("Desconocido", "Desconocido")]

/-- First-match association lookup (Python dict.get with a default is
modelled by the caller). -/
def lookupAssoc : List (String × String) → String → Option String
  | [], _ => Option.none
  | (k, r) :: rest, s => if k = s then some r else lookupAssoc rest s

/-- The `pais_operacion` cell transform (src/main.py line 138):
`country_mapping.get(x, x)` followed by `astype(str)`.  Non-string cells are
not keys of the table, pass through, and are coerced to text. -/
def countryCell (v : PyVal) : PyVal :=
  PyVal.str (pyStrOf
    (match v with
     | PyVal.str s =>
       match lookupAssoc country_mapping s with
       | some r => PyVal.str r
       | _ => v
     | _ => v))

/-- The title-cased text cells (src/main.py lines 140-144):
`astype(str).str.title()`. -/
def titleCell (v : PyVal) : PyVal :=
  PyVal.str (pyTitle (pyStrOf v))

/-- The `numero_viajeros` cell transform (src/main.py line 106):
`replace("Cuarenta", 40).fillna(0).astype(int)`. -/
def numeroViajerosCell (v : PyVal) : Except String PyVal :=
  let v1 := if v = PyVal.str "Cuarenta" then PyVal.int 40 else v
  let v2 := fillna v1 (PyVal.int 0)
  (astypeInt v2).map PyVal.int

/-- The `distancia_km` / `tarifa_media_por_viajero_eur` cell transform
(src/main.py lines 113-114): `astype(str).str.replace(",", ".").astype(float)`.
On a float cell str() round-trips, so the composite is the identity; on a
bool cell float("True"/"False") raises; on the missing marker str() gives
"nan" which parses back to NaN. -/
def floatViaStrCell (v : PyVal) : Except String PyVal :=
  match v with
  | PyVal.float x => Except.ok (PyVal.float x)
  | PyVal.int n => Except.ok (PyVal.float (PyFloat.finite (n : ℚ)))
  | PyVal.none => Except.ok (PyVal.float PyFloat.nan)
  | PyVal.bool b => Except.error ("could not convert string to float: " ++
      (if b then "True" else "False"))
  | PyVal.str s =>
    match pyFloatOfString (String.mk (s.data.map (fun c => if c = ',' then '.' else c))) with
    | some x => Except.ok (PyVal.float x)
    | _ => Except.error ("could not convert string to float: " ++ s)

/-- The `puntuacion_cliente` cell transform (src/main.py lines 120-121):
`pd.to_numeric(errors="coerce").fillna(0).astype(int)` then `clip(1, 5)`. -/
def puntuacionCell (v : PyVal) : Except String PyVal :=
  (astypeInt (fillna (toNumeric v) (PyVal.int 0))).map
    (fun n => PyVal.int (clipInt 1 5 n))

/-- ISO calendar-date check used by the date-cell model: YYYY-MM-DD. -/
def parseIsoDate (s : String) : Bool :=
  match splitOnChar '-' s.data with
  | [y, m, d] =>
    y.length = 4 && y.all Char.isDigit &&
    (1 ≤ m.length && m.length ≤ 2 && m.all Char.isDigit &&
     1 ≤ digitsVal m && digitsVal m ≤ 12) &&
    (1 ≤ d.length && d.length ≤ 2 && d.all Char.isDigit &&
     1 ≤ digitsVal d && digitsVal d ≤ 31)
  | _ => false

/-- The `fecha_viaje` cell transform (src/main.py line 124):
`pd.to_datetime(...).dt.date`.  The flexible library date parser is modelled
for ISO YYYY-MM-DD text (the only shape any claim exercises); missing cells
become NaT; anything unparseable aborts the batch, as in pandas. -/
def fechaCell (v : PyVal) : Except String PyVal :=
  match v with
  | PyVal.none => Except.ok PyVal.none
  | PyVal.str s =>
    if parseIsoDate s then Except.ok (PyVal.str s)
    else Except.error ("Unknown datetime string format: " ++ s)
  | _ => Except.error "invalid date value"

deriving instance DecidableEq for Except

example : countryCell (PyVal.str "ES") = PyVal.str "España" := by decide
example : titleCell PyVal.none = PyVal.str "Nan" := by decide
example : puntuacionCell (PyVal.int 7) = Except.ok (PyVal.int 5) := by
  with_unfolding_all decide

/-- C4 counterexample: the claim says non-numeric text yields 0, but
`astype(int)` raises ValueError on such text, so the batch fails instead of
producing 0. -/
theorem C4_counterexample :
    numeroViajerosCell (PyVal.str "abc") =
      Except.error "invalid literal for int() with base 10: abc" ∧
    numeroViajerosCell (PyVal.str "abc") ≠ Except.ok (PyVal.int 0) := by
  refine ⟨rfl, ?_⟩
  intro h
  rw [(rfl : numeroViajerosCell (PyVal.str "abc") =
      Except.error "invalid literal for int() with base 10: abc")] at h
  exact Except.noConfusion h

/-- C4 amended: "Cuarenta" maps to 40; absent/null maps to 0; numeric values
are truncated to an integer and integer-literal text parses; any other text
is a fatal (batch-aborting) error rather than 0. -/
theorem C4_numero_viajeros_amended :
    numeroViajerosCell (PyVal.str "Cuarenta") = Except.ok (PyVal.int 40) ∧
    numeroViajerosCell PyVal.none = Except.ok (PyVal.int 0) ∧
    numeroViajerosCell (PyVal.float PyFloat.nan) = Except.ok (PyVal.int 0) ∧
    (∀ n : Int, numeroViajerosCell (PyVal.int n) = Except.ok (PyVal.int n)) ∧
    (∀ q : ℚ, numeroViajerosCell (PyVal.float (PyFloat.finite q)) =
      Except.ok (PyVal.int (truncRat q))) ∧
    (∀ s : String, s ≠ "Cuarenta" → pyIntOfString s = Option.none →
      numeroViajerosCell (PyVal.str s) =
        Except.error ("invalid literal for int() with base 10: " ++ s)) := by
  refine ⟨rfl, rfl, rfl, ?_, ?_, ?_⟩
  · intro n
    simp [numeroViajerosCell, fillna, isNA, astypeInt, Except.map]
  · intro q
    simp [numeroViajerosCell, fillna, isNA, astypeInt, Except.map]
  · intro s hs hnum
    simp only [numeroViajerosCell, PyVal.str.injEq]
    rw [if_neg (by simpa using hs)]
    simp [fillna, isNA, astypeInt, hnum, Except.map]

/-- C4 witness: a float truncates (3.7 to 3) and non-numeric text aborts. -/
theorem C4_numero_viajeros_amended_witness :
    numeroViajerosCell (PyVal.float (PyFloat.finite (37 / 10))) = Except.ok (PyVal.int 3) ∧
    numeroViajerosCell (PyVal.str "abc") =
      Except.error ("invalid literal for int() with base 10: " ++ "abc") := by
  constructor
  · have h := C4_numero_viajeros_amended.2.2.2.2.1 (37 / 10)
    have ht : truncRat (37 / 10) = 3 := by with_unfolding_all decide
    rw [h, ht]
  · exact C4_numero_viajeros_amended.2.2.2.2.2 "abc" (by decide) (by decide)

/-- C7: puntuacion_cliente is parsed as a number with failure or absence
giving 0 and the result clamped into [1,5]: 7 maps to 5, -3 maps to 1, an
absent value maps to 1 (0 clamped up), unparseable text maps to 1, and every
successfully produced value lies in [1,5]. -/
theorem C7_puntuacion_clamped :
    puntuacionCell (PyVal.int 7) = Except.ok (PyVal.int 5) ∧
    puntuacionCell (PyVal.int (-3)) = Except.ok (PyVal.int 1) ∧
    puntuacionCell PyVal.none = Except.ok (PyVal.int 1) ∧
    (∀ s : String, pyIntOfString s = Option.none → pyFloatOfString s = Option.none →
      puntuacionCell (PyVal.str s) = Except.ok (PyVal.int 1)) ∧
    (∀ v r, puntuacionCell v = Except.ok r →
      ∃ n : Int, r = PyVal.int n ∧ 1 ≤ n ∧ n ≤ 5) := by
  refine ⟨by with_unfolding_all decide, by with_unfolding_all decide,
    by with_unfolding_all decide, ?_, ?_⟩
  · intro s hi hf
    simp [puntuacionCell, toNumeric, hi, hf, fillna, isNA, astypeInt, clipInt, Except.map]
  · intro v r h
    simp only [puntuacionCell, Except.map] at h
    cases ha : astypeInt (fillna (toNumeric v) (PyVal.int 0)) with
    | error e => rw [ha] at h; exact Except.noConfusion h
    | ok n =>
      rw [ha] at h
      injection h with h
      exact ⟨clipInt 1 5 n, h.symm, by simp only [clipInt]; omega,
        by simp only [clipInt]; omega⟩

/-- C7 witness: unparseable text gives 1 and a successful output (from
input 7) lies in [1,5]. -/
theorem C7_puntuacion_clamped_witness :
    puntuacionCell (PyVal.str "mala") = Except.ok (PyVal.int 1) ∧
    (∃ n : Int, PyVal.int 5 = PyVal.int n ∧ 1 ≤ n ∧ n ≤ 5) := by
  constructor
  · exact C7_puntuacion_clamped.2.2.2.1 "mala" (by decide) (by decide)
  · exact C7_puntuacion_clamped.2.2.2.2 (PyVal.int 7) (PyVal.int 5)
      (by with_unfolding_all decide)

/-- C8: pais_operacion goes through the fixed alias table; a matched key is
replaced by its normalized value, an unmatched value passes through
unchanged, and the whole field is then coerced to text; in particular "ES"
becomes "España" while lowercase "pt" stays "pt". -/
theorem C8_pais_operacion :
    countryCell (PyVal.str "ES") = PyVal.str "España" ∧
    countryCell (PyVal.str "pt") = PyVal.str "pt" ∧
    (∀ s r, lookupAssoc country_mapping s = some r →
      countryCell (PyVal.str s) = PyVal.str r) ∧
    (∀ s, lookupAssoc country_mapping s = Option.none →
      countryCell (PyVal.str s) = PyVal.str s) ∧
    (∀ v, (∀ s, v ≠ PyVal.str s) → countryCell v = PyVal.str (pyStrOf v)) := by
  refine ⟨by decide, by decide, ?_, ?_, ?_⟩
  · intro s r h
    simp [countryCell, h, pyStrOf]
  · intro s h
    simp [countryCell, h, pyStrOf]
  · intro v h
    cases v with
    | str s => exact absurd rfl (h s)
    | none => rfl
    | bool b => rfl
    | int n => rfl
    | float x => rfl

/-- C8 witness: the alias "MAR" normalizes to "Marruecos" (a table hit) and
the unlisted value "xx" passes through (a table miss). -/
theorem C8_pais_operacion_witness :
    countryCell (PyVal.str "MAR") = PyVal.str "Marruecos" ∧
    countryCell (PyVal.str "xx") = PyVal.str "xx" := by
  constructor
  · exact C8_pais_operacion.2.2.1 "MAR" "Marruecos" (by decide)
  · exact C8_pais_operacion.2.2.2.1 "xx" (by decide)

/-- C9 counterexample: an empty-string source value stays the empty string
through astype(str).str.title(), so these fields are not "never empty". -/
theorem C9_counterexample :
    titleCell (PyVal.str "") = PyVal.str "" := rfl

/-- C9 amended: for the title-cased free-text fields with no missing-value
default, a missing source value becomes the literal text "Nan" (string
coercion of the NaN missing marker, then title-casing), and the output is
always a string (never null) — though an empty input string stays empty. -/
theorem C9_missing_becomes_Nan :
    titleCell PyVal.none = PyVal.str "Nan" ∧
    titleCell (PyVal.float PyFloat.nan) = PyVal.str "Nan" ∧
    (∀ v, ∃ s, titleCell v = PyVal.str s) := by
  exact ⟨rfl, rfl, fun v => ⟨pyTitle (pyStrOf v), rfl⟩⟩

/-- Column lookup in an association list of named columns (pandas
`df[name]`, KeyError when absent is handled by the caller). -/
def lookupCol : List (String × List PyVal) → String → Option (List PyVal)
  | [], _ => Option.none
  | (k, v) :: rest, c => if k = c then some v else lookupCol rest c

/-- Column assignment (pandas `df[name] = col`): replace in place when the
name exists, append at the end otherwise. -/
def setColAux : List (String × List PyVal) → String → List PyVal → List (String × List PyVal)
  | [], c, v => [(c, v)]
  | (k, w) :: rest, c, v =>
    if k = c then (k, v) :: rest else (k, w) :: setColAux rest c v

/-- A DataFrame: named columns in order, each a list of cells (one per
row).  pandas builds it from the parsed JSON array; a key absent from some
records shows up as a NaN cell (`PyVal.none`) in an existing column. -/
structure DFrame where
  cols : List (String × List PyVal)
deriving DecidableEq

/-- Names of the columns of a DataFrame, in order. -/
def dfKeys (df : DFrame) : List String :=
  df.cols.map Prod.fst

/-- `df[name]` with KeyError on a missing column. -/
def getCol (df : DFrame) (c : String) : Except String (List PyVal) :=
  match lookupCol df.cols c with
  | some l => Except.ok l
  | _ => Except.error ("KeyError: " ++ c)

/-- `df[name] = col`. -/
def setCol (df : DFrame) (c : String) (l : List PyVal) : DFrame :=
  DFrame.mk (setColAux df.cols c l)

/-- Monadic map over a list in `Except` (element order preserved, first
error propagates). -/
def mapExcept (f : PyVal → Except String PyVal) : List PyVal → Except String (List PyVal)
  | [] => Except.ok []
  | a :: as =>
    match f a with
    | Except.error e => Except.error e
    | Except.ok b =>
      match mapExcept f as with
      | Except.error e => Except.error e
      | Except.ok bs => Except.ok (b :: bs)

/-- Apply a total per-cell function to one column (`df[c] = df[c].map f`). -/
def mapCol (df : DFrame) (c : String) (f : PyVal → PyVal) : Except String DFrame :=
  match getCol df c with
  | Except.error e => Except.error e
  | Except.ok l => Except.ok (setCol df c (l.map f))

/-- Apply a fallible per-cell function to one column (astype coercions that
can raise; the first bad cell aborts the batch). -/
def mapColE (df : DFrame) (c : String) (f : PyVal → Except String PyVal) : Except String DFrame :=
  match getCol df c with
  | Except.error e => Except.error e
  | Except.ok l =>
    match mapExcept f l with
    | Except.error e => Except.error e
    | Except.ok l2 => Except.ok (setCol df c l2)

/-- Zip two columns with a fallible row function. -/
def zipExcept2 (f : PyVal → PyVal → Except String PyVal) :
    List PyVal → List PyVal → Except String (List PyVal)
  | [], _ => Except.ok []
  | _ :: _, [] => Except.ok []
  | a :: as, b :: bs =>
    match f a b with
    | Except.error e => Except.error e
    | Except.ok r =>
      match zipExcept2 f as bs with
      | Except.error e => Except.error e
      | Except.ok rs => Except.ok (r :: rs)

/-- Zip three columns with a fallible row function. -/
def zipExcept3 (f : PyVal → PyVal → PyVal → Except String PyVal) :
    List PyVal → List PyVal → List PyVal → Except String (List PyVal)
  | [], _, _ => Except.ok []
  | _ :: _, [], _ => Except.ok []
  | _ :: _, _ :: _, [] => Except.ok []
  | a :: as, b :: bs, c :: cs =>
    match f a b c with
    | Except.error e => Except.error e
    | Except.ok r =>
      match zipExcept3 f as bs cs with
      | Except.error e => Except.error e
      | Except.ok rs => Except.ok (r :: rs)

/-- `df.apply(..., axis=1)` over two source columns, assigning the result to
a derived column (src/main.py lines 181-184). -/
def applyCols2 (df : DFrame) (c1 c2 target : String)
    (f : PyVal → PyVal → Except String PyVal) : Except String DFrame :=
  match getCol df c1 with
  | Except.error e => Except.error e
  | Except.ok l1 =>
    match getCol df c2 with
    | Except.error e => Except.error e
    | Except.ok l2 =>
      match zipExcept2 f l1 l2 with
      | Except.error e => Except.error e
      | Except.ok l => Except.ok (setCol df target l)

/-- `df.apply(..., axis=1)` over three source columns, assigning the result
to a derived column (src/main.py lines 174-177). -/
def applyCols3 (df : DFrame) (c1 c2 c3 target : String)
    (f : PyVal → PyVal → PyVal → Except String PyVal) : Except String DFrame :=
  match getCol df c1 with
  | Except.error e => Except.error e
  | Except.ok l1 =>
    match getCol df c2 with
    | Except.error e => Except.error e
    | Except.ok l2 =>
      match getCol df c3 with
      | Except.error e => Except.error e
      | Except.ok l3 =>
        match zipExcept3 f l1 l2 l3 with
        | Except.error e => Except.error e
        | Except.ok l => Except.ok (setCol df target l)

/-- The fixed output schema, 24 fields in order (src/main.py lines 20-45). -/
def BQ_SCHEMA_COLUMNS : List String :=
  ["id_viaje", "fecha_viaje", "hora_salida_programada", "hora_llegada_real",
   "origen_ciudad", "destino_ciudad", "pais_operacion", "numero_viajeros",
   "distancia_km", "tiempo_viaje_minutos", "tarifa_media_por_viajero_eur",
   "marca_autocar", "modelo_autocar", "matricula_autocar", "tipo_servicio",
   "incidencia_averia", "descripcion_averia", "costo_averia_eur",
   "puntuacion_cliente", "combustible_consumido_litros", "id_conductor",
   "edad_conductor", "retraso_minutos", "velocidad_media_kmh"]

/-- The 22 source fields the pipeline needs: the schema minus the two
derived columns it creates itself. -/
def requiredSourceCols : List String :=
  ["id_viaje", "fecha_viaje", "hora_salida_programada", "hora_llegada_real",
   "origen_ciudad", "destino_ciudad", "pais_operacion", "numero_viajeros",
   "distancia_km", "tiempo_viaje_minutos", "tarifa_media_por_viajero_eur",
   "marca_autocar", "modelo_autocar", "matricula_autocar", "tipo_servicio",
   "incidencia_averia", "descripcion_averia", "costo_averia_eur",
   "puntuacion_cliente", "combustible_consumido_litros", "id_conductor",
   "edad_conductor"]

/-- The `retraso_minutos` row computation as applied by the pipeline: by the
time it runs, every `tiempo_viaje_minutos` cell is an int (line 127), so
other cell shapes are unreachable there. -/
def retrasoCell (sched actual travel : PyVal) : Except String PyVal :=
  match travel with
  | PyVal.int n =>
    Except.ok (match calculate_delay sched actual n with
      | some d => PyVal.int d
      | _ => PyVal.none)
  | _ => Except.error "unreachable: tiempo_viaje_minutos is cast to int upstream"

/-- The `velocidad_media_kmh` row computation as applied by the pipeline:
by the time it runs, every `distancia_km` cell is a float (line 113) and
every `tiempo_viaje_minutos` cell an int (line 127). -/
def velocidadCell (dist travel : PyVal) : Except String PyVal :=
  match dist, travel with
  | PyVal.float x, PyVal.int n =>
    Except.ok (match velocidad_media x n with
      | some q => PyVal.float (PyFloat.finite q)
      | _ => PyVal.none)
  | _, _ => Except.error "unreachable: distancia/tiempo are cast upstream"

/-- The schema projection `df = df[BQ_SCHEMA_COLUMNS]` (src/main.py lines
193-200): select the 24 schema columns in order; a missing column is a
KeyError that is re-raised, aborting the batch. -/
def reorderCols (df : DFrame) : Except String DFrame :=
  match go BQ_SCHEMA_COLUMNS with
  | Except.error e => Except.error e
  | Except.ok cs => Except.ok (DFrame.mk cs)
where
  go : List String → Except String (List (String × List PyVal))
    | [] => Except.ok []
    | c :: cs =>
      match getCol df c with
      | Except.error e => Except.error e
      | Except.ok l =>
        match go cs with
        | Except.error e => Except.error e
        | Except.ok rest => Except.ok ((c, l) :: rest)

/-- The transform section of `etl_transportation_data` (src/main.py lines
99-200): the per-column cleaning rules in source order, the two derived
columns, and the final schema projection. -/
def etl_transform (df0 : DFrame) : Except String DFrame :=
  mapCol df0 "pais_operacion" (fun v => fillna v (PyVal.str "Desconocido")) |>.bind fun df =>
  mapCol df "modelo_autocar" (fun v => fillna v (PyVal.str "N/A")) |>.bind fun df =>
  mapCol df "descripcion_averia" (fun v => fillna v (PyVal.str "Sin Avería")) |>.bind fun df =>
  mapColE df "numero_viajeros" numeroViajerosCell |>.bind fun df =>
  mapCol df "costo_averia_eur" (fun v => fillna v (PyVal.float (PyFloat.finite 0))) |>.bind fun df =>
  mapColE df "distancia_km" floatViaStrCell |>.bind fun df =>
  mapColE df "tarifa_media_por_viajero_eur" floatViaStrCell |>.bind fun df =>
  mapCol df "incidencia_averia" (fun v => PyVal.bool (astypeBool v)) |>.bind fun df =>
  mapColE df "puntuacion_cliente" puntuacionCell |>.bind fun df =>
  mapColE df "fecha_viaje" fechaCell |>.bind fun df =>
  mapColE df "tiempo_viaje_minutos" (fun v => (astypeInt v).map PyVal.int) |>.bind fun df =>
  mapColE df "combustible_consumido_litros" (fun v => (astypeFloat v).map PyVal.float) |>.bind fun df =>
  mapColE df "edad_conductor" (fun v => (astypeInt v).map PyVal.int) |>.bind fun df =>
  mapCol df "pais_operacion" countryCell |>.bind fun df =>
  mapCol df "marca_autocar" titleCell |>.bind fun df =>
  mapCol df "modelo_autocar" titleCell |>.bind fun df =>
  mapCol df "origen_ciudad" titleCell |>.bind fun df =>
  mapCol df "destino_ciudad" titleCell |>.bind fun df =>
  mapCol df "tipo_servicio" titleCell |>.bind fun df =>
  applyCols3 df "hora_salida_programada" "hora_llegada_real" "tiempo_viaje_minutos"
    "retraso_minutos" retrasoCell |>.bind fun df =>
  applyCols2 df "distancia_km" "tiempo_viaje_minutos" "velocidad_media_kmh"
    velocidadCell |>.bind fun df =>
  reorderCols df

/-- All columns of a DataFrame have the same number of rows. -/
def uniformLen (df : DFrame) (n : Nat) : Prop :=
  ∀ p ∈ df.cols, p.2.length = n

lemma lookupCol_mem {l : List (String × List PyVal)} {c : String} {v : List PyVal}
    (h : lookupCol l c = some v) : c ∈ l.map Prod.fst := by
  induction l with
  | nil => simp [lookupCol] at h
  | cons p rest ih =>
    obtain ⟨k, w⟩ := p
    by_cases hk : k = c
    · simp [hk]
    · rw [lookupCol, if_neg hk] at h
      simp [ih h]

lemma lookupCol_length {l : List (String × List PyVal)} {c : String} {v : List PyVal} {n : Nat}
    (h : lookupCol l c = some v) (hu : ∀ p ∈ l, p.2.length = n) : v.length = n := by
  induction l with
  | nil => simp [lookupCol] at h
  | cons p rest ih =>
    obtain ⟨k, w⟩ := p
    by_cases hk : k = c
    · rw [lookupCol, if_pos hk] at h
      have hw : w = v := by injection h
      subst hw
      exact hu (k, w) (by simp)
    · rw [lookupCol, if_neg hk] at h
      exact ih h (fun p hp => hu p (List.mem_cons_of_mem _ hp))

lemma setColAux_keys (l : List (String × List PyVal)) (c : String) (v : List PyVal) :
    (setColAux l c v).map Prod.fst =
      if c ∈ l.map Prod.fst then l.map Prod.fst else l.map Prod.fst ++ [c] := by
  induction l with
  | nil => simp [setColAux]
  | cons p rest ih =>
    obtain ⟨k, w⟩ := p
    by_cases hk : k = c
    · subst hk
      simp [setColAux]
    · rw [setColAux, if_neg hk]
      simp only [List.map_cons, ih]
      by_cases hc : c ∈ rest.map Prod.fst
      · rw [if_pos hc, if_pos (by simp [hc])]
      · have hnc : ¬c ∈ k :: List.map Prod.fst rest := by
          simp only [List.mem_cons]
          rintro (h | h)
          · exact hk h.symm
          · exact hc h
        rw [if_neg hc, if_neg hnc, List.cons_append]

lemma setColAux_uniform {l : List (String × List PyVal)} {c : String} {v : List PyVal} {n : Nat}
    (hu : ∀ p ∈ l, p.2.length = n) (hv : v.length = n) :
    ∀ p ∈ setColAux l c v, p.2.length = n := by
  induction l with
  | nil =>
    intro p hp
    rw [setColAux] at hp
    simp at hp
    simp [hp, hv]
  | cons q rest ih =>
    obtain ⟨k, w⟩ := q
    intro p hp
    by_cases hk : k = c
    · rw [setColAux, if_pos hk] at hp
      rcases List.mem_cons.mp hp with h | h
      · simp [h, hv]
      · exact hu p (List.mem_cons_of_mem _ h)
    · rw [setColAux, if_neg hk] at hp
      rcases List.mem_cons.mp hp with h | h
      · subst h
        exact hu (k, w) (by simp)
      · exact ih (fun p hp => hu p (List.mem_cons_of_mem _ hp)) p h

lemma mapExcept_length {f : PyVal → Except String PyVal} :
    ∀ {l l2 : List PyVal}, mapExcept f l = Except.ok l2 → l2.length = l.length := by
  intro l
  induction l with
  | nil =>
    intro l2 h
    rw [mapExcept] at h
    injection h with h
    simp [h.symm]
  | cons a as ih =>
    intro l2 h
    rw [mapExcept] at h
    cases hf : f a with
    | error e => rw [hf] at h; exact Except.noConfusion h
    | ok b =>
      rw [hf] at h
      cases hr : mapExcept f as with
      | error e => rw [hr] at h; exact Except.noConfusion h
      | ok bs =>
        rw [hr] at h
        injection h with h
        simp [h.symm, ih hr]

lemma zipExcept2_length {f : PyVal → PyVal → Except String PyVal} :
    ∀ {l1 l2 r : List PyVal}, zipExcept2 f l1 l2 = Except.ok r →
      r.length = min l1.length l2.length := by
  intro l1
  induction l1 with
  | nil =>
    intro l2 r h
    rw [zipExcept2] at h
    injection h with h
    simp [h.symm]
  | cons a as ih =>
    intro l2 r h
    cases l2 with
    | nil =>
      rw [zipExcept2] at h
      injection h with h
      simp [h.symm]
    | cons b bs =>
      rw [zipExcept2] at h
      cases hf : f a b with
      | error e => rw [hf] at h; exact Except.noConfusion h
      | ok v =>
        rw [hf] at h
        cases hr : zipExcept2 f as bs with
        | error e => rw [hr] at h; exact Except.noConfusion h
        | ok rs =>
          rw [hr] at h
          injection h with h
          have := ih hr
          simp [h.symm, this]
          omega

lemma zipExcept3_length {f : PyVal → PyVal → PyVal → Except String PyVal} :
    ∀ {l1 l2 l3 r : List PyVal}, zipExcept3 f l1 l2 l3 = Except.ok r →
      r.length = min l1.length (min l2.length l3.length) := by
  intro l1
  induction l1 with
  | nil =>
    intro l2 l3 r h
    rw [zipExcept3] at h
    injection h with h
    simp [h.symm]
  | cons a as ih =>
    intro l2 l3 r h
    cases l2 with
    | nil =>
      rw [zipExcept3] at h
      injection h with h
      simp [h.symm]
    | cons b bs =>
      cases l3 with
      | nil =>
        rw [zipExcept3] at h
        injection h with h
        simp [h.symm]
      | cons c cs =>
        rw [zipExcept3] at h
        cases hf : f a b c with
        | error e => rw [hf] at h; exact Except.noConfusion h
        | ok v =>
          rw [hf] at h
          cases hr : zipExcept3 f as bs cs with
          | error e => rw [hr] at h; exact Except.noConfusion h
          | ok rs =>
            rw [hr] at h
            injection h with h
            have := ih hr
            simp [h.symm, this]
            omega

lemma getCol_ok {df : DFrame} {c : String} {l : List PyVal}
    (h : getCol df c = Except.ok l) :
    c ∈ dfKeys df ∧ ∀ n, uniformLen df n → l.length = n := by
  rw [getCol] at h
  cases hl : lookupCol df.cols c with
  | none => rw [hl] at h; exact Except.noConfusion h
  | some v =>
    rw [hl] at h
    have hv : v = l := by injection h
    subst hv
    exact ⟨lookupCol_mem hl, fun n hu => lookupCol_length hl hu⟩

lemma setCol_keys (df : DFrame) (c : String) (l : List PyVal) :
    dfKeys (setCol df c l) =
      if c ∈ dfKeys df then dfKeys df else dfKeys df ++ [c] :=
  setColAux_keys df.cols c l

lemma setCol_uniform {df : DFrame} {c : String} {l : List PyVal} {n : Nat}
    (hu : uniformLen df n) (hl : l.length = n) : uniformLen (setCol df c l) n :=
  fun p hp => setColAux_uniform hu hl p hp

lemma bind_ok {α β : Type} {x : Except String α} {f : α → Except String β} {b : β}
    (h : x.bind f = Except.ok b) : ∃ a, x = Except.ok a ∧ f a = Except.ok b := by
  cases x with
  | error e => simp [Except.bind] at h
  | ok a => exact ⟨a, rfl, h⟩

lemma mapCol_ok {df df2 : DFrame} {c : String} {f : PyVal → PyVal}
    (h : mapCol df c f = Except.ok df2) :
    c ∈ dfKeys df ∧ dfKeys df2 = dfKeys df ∧
    ∀ n, uniformLen df n → uniformLen df2 n := by
  rw [mapCol] at h
  cases hg : getCol df c with
  | error e => rw [hg] at h; exact Except.noConfusion h
  | ok l =>
    rw [hg] at h
    have hdf : setCol df c (l.map f) = df2 := by injection h
    subst hdf
    obtain ⟨hmem, hlen⟩ := getCol_ok hg
    refine ⟨hmem, ?_, ?_⟩
    · rw [setCol_keys, if_pos hmem]
    · intro n hu
      exact setCol_uniform hu (by rw [List.length_map]; exact hlen n hu)

lemma mapColE_ok {df df2 : DFrame} {c : String} {f : PyVal → Except String PyVal}
    (h : mapColE df c f = Except.ok df2) :
    c ∈ dfKeys df ∧ dfKeys df2 = dfKeys df ∧
    ∀ n, uniformLen df n → uniformLen df2 n := by
  rw [mapColE] at h
  cases hg : getCol df c with
  | error e => rw [hg] at h; exact Except.noConfusion h
  | ok l =>
    rw [hg] at h
    simp only [] at h
    cases hm : mapExcept f l with
    | error e => rw [hm] at h; exact Except.noConfusion h
    | ok l2 =>
      rw [hm] at h
      have hdf : setCol df c l2 = df2 := by injection h
      subst hdf
      obtain ⟨hmem, hlen⟩ := getCol_ok hg
      refine ⟨hmem, ?_, ?_⟩
      · rw [setCol_keys, if_pos hmem]
      · intro n hu
        exact setCol_uniform hu (by rw [mapExcept_length hm]; exact hlen n hu)

lemma applyCols2_ok {df df2 : DFrame} {c1 c2 t : String}
    {f : PyVal → PyVal → Except String PyVal}
    (h : applyCols2 df c1 c2 t f = Except.ok df2) :
    c1 ∈ dfKeys df ∧ c2 ∈ dfKeys df ∧
    (dfKeys df2 = dfKeys df ∨ dfKeys df2 = dfKeys df ++ [t]) ∧
    ∀ n, uniformLen df n → uniformLen df2 n := by
  rw [applyCols2] at h
  cases hg1 : getCol df c1 with
  | error e => rw [hg1] at h; exact Except.noConfusion h
  | ok l1 =>
    rw [hg1] at h
    simp only [] at h
    cases hg2 : getCol df c2 with
    | error e => rw [hg2] at h; exact Except.noConfusion h
    | ok l2 =>
      rw [hg2] at h
      simp only [] at h
      cases hz : zipExcept2 f l1 l2 with
      | error e => rw [hz] at h; exact Except.noConfusion h
      | ok l =>
        rw [hz] at h
        have hdf : setCol df t l = df2 := by injection h
        subst hdf
        obtain ⟨hm1, hl1⟩ := getCol_ok hg1
        obtain ⟨hm2, hl2⟩ := getCol_ok hg2
        refine ⟨hm1, hm2, ?_, ?_⟩
        · rw [setCol_keys]
          by_cases ht : t ∈ dfKeys df
          · rw [if_pos ht]; exact Or.inl rfl
          · rw [if_neg ht]; exact Or.inr rfl
        · intro n hu
          refine setCol_uniform hu ?_
          rw [zipExcept2_length hz, hl1 n hu, hl2 n hu]
          simp

lemma applyCols3_ok {df df2 : DFrame} {c1 c2 c3 t : String}
    {f : PyVal → PyVal → PyVal → Except String PyVal}
    (h : applyCols3 df c1 c2 c3 t f = Except.ok df2) :
    c1 ∈ dfKeys df ∧ c2 ∈ dfKeys df ∧ c3 ∈ dfKeys df ∧
    (dfKeys df2 = dfKeys df ∨ dfKeys df2 = dfKeys df ++ [t]) ∧
    ∀ n, uniformLen df n → uniformLen df2 n := by
  rw [applyCols3] at h
  cases hg1 : getCol df c1 with
  | error e => rw [hg1] at h; exact Except.noConfusion h
  | ok l1 =>
    rw [hg1] at h
    simp only [] at h
    cases hg2 : getCol df c2 with
    | error e => rw [hg2] at h; exact Except.noConfusion h
    | ok l2 =>
      rw [hg2] at h
      simp only [] at h
      cases hg3 : getCol df c3 with
      | error e => rw [hg3] at h; exact Except.noConfusion h
      | ok l3 =>
        rw [hg3] at h
        simp only [] at h
        cases hz : zipExcept3 f l1 l2 l3 with
        | error e => rw [hz] at h; exact Except.noConfusion h
        | ok l =>
          rw [hz] at h
          have hdf : setCol df t l = df2 := by injection h
          subst hdf
          obtain ⟨hm1, hl1⟩ := getCol_ok hg1
          obtain ⟨hm2, hl2⟩ := getCol_ok hg2
          obtain ⟨hm3, hl3⟩ := getCol_ok hg3
          refine ⟨hm1, hm2, hm3, ?_, ?_⟩
          · rw [setCol_keys]
            by_cases ht : t ∈ dfKeys df
            · rw [if_pos ht]; exact Or.inl rfl
            · rw [if_neg ht]; exact Or.inr rfl
          · intro n hu
            refine setCol_uniform hu ?_
            rw [zipExcept3_length hz, hl1 n hu, hl2 n hu, hl3 n hu]
            simp

lemma reorder_go_ok {df : DFrame} :
    ∀ {cs : List String} {l : List (String × List PyVal)},
      reorderCols.go df cs = Except.ok l →
      l.map Prod.fst = cs ∧ (∀ c ∈ cs, c ∈ dfKeys df) ∧
      ∀ n, uniformLen df n → ∀ p ∈ l, p.2.length = n := by
  intro cs
  induction cs with
  | nil =>
    intro l h
    rw [reorderCols.go] at h
    have hl : ([] : List (String × List PyVal)) = l := by injection h
    subst hl
    exact ⟨rfl, by simp, by simp⟩
  | cons c cs ih =>
    intro l h
    rw [reorderCols.go] at h
    cases hg : getCol df c with
    | error e => rw [hg] at h; exact Except.noConfusion h
    | ok v =>
      rw [hg] at h
      simp only [] at h
      cases hr : reorderCols.go df cs with
      | error e => rw [hr] at h; exact Except.noConfusion h
      | ok rest =>
        rw [hr] at h
        have hl : (c, v) :: rest = l := by injection h
        subst hl
        obtain ⟨h1, h2, h3⟩ := ih hr
        obtain ⟨hm, hlen⟩ := getCol_ok hg
        refine ⟨by simp [h1], ?_, ?_⟩
        · intro x hx
          rcases List.mem_cons.mp hx with hx | hx
          · subst hx; exact hm
          · exact h2 x hx
        · intro n hu p hp
          rcases List.mem_cons.mp hp with hp | hp
          · subst hp; exact hlen n hu
          · exact h3 n hu p hp

lemma reorderCols_ok {df out : DFrame} (h : reorderCols df = Except.ok out) :
    dfKeys out = BQ_SCHEMA_COLUMNS ∧
    (∀ c ∈ BQ_SCHEMA_COLUMNS, c ∈ dfKeys df) ∧
    ∀ n, uniformLen df n → uniformLen out n := by
  rw [reorderCols] at h
  cases hg : reorderCols.go df BQ_SCHEMA_COLUMNS with
  | error e => rw [hg] at h; exact Except.noConfusion h
  | ok cs =>
    rw [hg] at h
    have hout : DFrame.mk cs = out := by injection h
    subst hout
    obtain ⟨h1, h2, h3⟩ := reorder_go_ok hg
    exact ⟨h1, h2, fun n hu => h3 n hu⟩

lemma mem_of_step_keys {k t : String} {df df2 : DFrame}
    (hk : dfKeys df2 = dfKeys df ∨ dfKeys df2 = dfKeys df ++ [t])
    (hne : k ≠ t) (h : k ∈ dfKeys df2) : k ∈ dfKeys df := by
  rcases hk with hk | hk
  · rwa [hk] at h
  · rw [hk] at h
    rcases List.mem_append.mp h with h | h
    · exact h
    · simp at h
      exact absurd h hne

lemma etl_transform_ok_facts {df0 out : DFrame}
    (h : etl_transform df0 = Except.ok out) :
    dfKeys out = BQ_SCHEMA_COLUMNS ∧
    (∀ n, uniformLen df0 n → uniformLen out n) ∧
    (∀ c ∈ requiredSourceCols, c ∈ dfKeys df0) := by
  rw [etl_transform] at h
  obtain ⟨df1, h1, h⟩ := bind_ok h
  obtain ⟨df2, h2, h⟩ := bind_ok h
  obtain ⟨df3, h3, h⟩ := bind_ok h
  obtain ⟨df4, h4, h⟩ := bind_ok h
  obtain ⟨df5, h5, h⟩ := bind_ok h
  obtain ⟨df6, h6, h⟩ := bind_ok h
  obtain ⟨df7, h7, h⟩ := bind_ok h
  obtain ⟨df8, h8, h⟩ := bind_ok h
  obtain ⟨df9, h9, h⟩ := bind_ok h
  obtain ⟨df10, h10, h⟩ := bind_ok h
  obtain ⟨df11, h11, h⟩ := bind_ok h
  obtain ⟨df12, h12, h⟩ := bind_ok h
  obtain ⟨df13, h13, h⟩ := bind_ok h
  obtain ⟨df14, h14, h⟩ := bind_ok h
  obtain ⟨df15, h15, h⟩ := bind_ok h
  obtain ⟨df16, h16, h⟩ := bind_ok h
  obtain ⟨df17, h17, h⟩ := bind_ok h
  obtain ⟨df18, h18, h⟩ := bind_ok h
  obtain ⟨df19, h19, h⟩ := bind_ok h
  obtain ⟨df20, h20, h⟩ := bind_ok h
  obtain ⟨df21, h21, h⟩ := bind_ok h
  obtain ⟨m1, k1, u1⟩ := mapCol_ok h1
  obtain ⟨m2, k2, u2⟩ := mapCol_ok h2
  obtain ⟨m3, k3, u3⟩ := mapCol_ok h3
  obtain ⟨m4, k4, u4⟩ := mapColE_ok h4
  obtain ⟨m5, k5, u5⟩ := mapCol_ok h5
  obtain ⟨m6, k6, u6⟩ := mapColE_ok h6
  obtain ⟨m7, k7, u7⟩ := mapColE_ok h7
  obtain ⟨m8, k8, u8⟩ := mapCol_ok h8
  obtain ⟨m9, k9, u9⟩ := mapColE_ok h9
  obtain ⟨m10, k10, u10⟩ := mapColE_ok h10
  obtain ⟨m11, k11, u11⟩ := mapColE_ok h11
  obtain ⟨m12, k12, u12⟩ := mapColE_ok h12
  obtain ⟨m13, k13, u13⟩ := mapColE_ok h13
  obtain ⟨m14, k14, u14⟩ := mapCol_ok h14
  obtain ⟨m15, k15, u15⟩ := mapCol_ok h15
  obtain ⟨m16, k16, u16⟩ := mapCol_ok h16
  obtain ⟨m17, k17, u17⟩ := mapCol_ok h17
  obtain ⟨m18, k18, u18⟩ := mapCol_ok h18
  obtain ⟨m19, k19, u19⟩ := mapCol_ok h19
  obtain ⟨m20a, m20b, m20c, k20, u20⟩ := applyCols3_ok h20
  obtain ⟨m21a, m21b, k21, u21⟩ := applyCols2_ok h21
  obtain ⟨r1, r2, r3⟩ := reorderCols_ok h
  have e1 : dfKeys df1 = dfKeys df0 := k1
  have e2 : dfKeys df2 = dfKeys df0 := by rw [k2, e1]
  have e3 : dfKeys df3 = dfKeys df0 := by rw [k3, e2]
  have e4 : dfKeys df4 = dfKeys df0 := by rw [k4, e3]
  have e5 : dfKeys df5 = dfKeys df0 := by rw [k5, e4]
  have e6 : dfKeys df6 = dfKeys df0 := by rw [k6, e5]
  have e7 : dfKeys df7 = dfKeys df0 := by rw [k7, e6]
  have e8 : dfKeys df8 = dfKeys df0 := by rw [k8, e7]
  have e9 : dfKeys df9 = dfKeys df0 := by rw [k9, e8]
  have e10 : dfKeys df10 = dfKeys df0 := by rw [k10, e9]
  have e11 : dfKeys df11 = dfKeys df0 := by rw [k11, e10]
  have e12 : dfKeys df12 = dfKeys df0 := by rw [k12, e11]
  have e13 : dfKeys df13 = dfKeys df0 := by rw [k13, e12]
  have e14 : dfKeys df14 = dfKeys df0 := by rw [k14, e13]
  have e15 : dfKeys df15 = dfKeys df0 := by rw [k15, e14]
  have e16 : dfKeys df16 = dfKeys df0 := by rw [k16, e15]
  have e17 : dfKeys df17 = dfKeys df0 := by rw [k17, e16]
  have e18 : dfKeys df18 = dfKeys df0 := by rw [k18, e17]
  have e19 : dfKeys df19 = dfKeys df0 := by rw [k19, e18]
  refine ⟨r1, ?_, ?_⟩
  · intro n hu
    exact r3 n (u21 n (u20 n (u19 n (u18 n (u17 n (u16 n (u15 n (u14 n (u13 n (u12 n
      (u11 n (u10 n (u9 n (u8 n (u7 n (u6 n (u5 n (u4 n (u3 n (u2 n (u1 n hu)))))))))))))))))))))
  · have trio : ∀ x, x ∈ BQ_SCHEMA_COLUMNS → x ≠ "retraso_minutos" →
        x ≠ "velocidad_media_kmh" → x ∈ dfKeys df0 := by
      intro x hx hn1 hn2
      have hx20 := mem_of_step_keys k21 hn2 (r2 x hx)
      have hx19 := mem_of_step_keys k20 hn1 hx20
      rwa [e19] at hx19
    intro c hc
    rw [e1] at m2
    rw [e2] at m3
    rw [e3] at m4
    rw [e4] at m5
    rw [e5] at m6
    rw [e6] at m7
    rw [e7] at m8
    rw [e8] at m9
    rw [e9] at m10
    rw [e10] at m11
    rw [e14] at m15
    rw [e16] at m17
    rw [e17] at m18
    rw [e18] at m19
    rw [e19] at m20a
    rw [e19] at m20b
    rw [e11] at m12
    rw [e12] at m13
    simp only [requiredSourceCols, List.mem_cons, List.not_mem_nil, or_false] at hc
    rcases hc with rfl | rfl | rfl | rfl | rfl | rfl | rfl | rfl | rfl | rfl | rfl |
      rfl | rfl | rfl | rfl | rfl | rfl | rfl | rfl | rfl | rfl | rfl
    · exact trio _ (by decide) (by decide) (by decide)
    · exact m10
    · exact m20a
    · exact m20b
    · exact m17
    · exact m18
    · exact m1
    · exact m4
    · exact m6
    · exact m11
    · exact m7
    · exact m15
    · exact m2
    · exact trio _ (by decide) (by decide) (by decide)
    · exact m19
    · exact m8
    · exact m3
    · exact m5
    · exact m9
    · exact m12
    · exact trio _ (by decide) (by decide) (by decide)
    · exact m13

/-- A one-row record set with every required source field present and every
value passing the coercions. -/
def c3OkDF : DFrame := DFrame.mk
  [("id_viaje", [PyVal.str "V001"]),
   ("fecha_viaje", [PyVal.str "2024-01-15"]),
   ("hora_salida_programada", [PyVal.str "08:00"]),
   ("hora_llegada_real", [PyVal.str "09:10"]),
   ("origen_ciudad", [PyVal.str "madrid"]),
   ("destino_ciudad", [PyVal.str "sevilla"]),
   ("pais_operacion", [PyVal.str "ES"]),
   ("numero_viajeros", [PyVal.int 30]),
   ("distancia_km", [PyVal.str "120"]),
   ("tiempo_viaje_minutos", [PyVal.int 50]),
   ("tarifa_media_por_viajero_eur", [PyVal.str "12,5"]),
   ("marca_autocar", [PyVal.str "mercedes"]),
   ("modelo_autocar", [PyVal.none]),
   ("matricula_autocar", [PyVal.str "1234ABC"]),
   ("tipo_servicio", [PyVal.str "regular"]),
   ("incidencia_averia", [PyVal.bool false]),
   ("descripcion_averia", [PyVal.none]),
   ("costo_averia_eur", [PyVal.none]),
   ("puntuacion_cliente", [PyVal.int 4]),
   ("combustible_consumido_litros", [PyVal.float (PyFloat.finite 80)]),
   ("id_conductor", [PyVal.str "D01"]),
   ("edad_conductor", [PyVal.int 45])]

/-- The transformed output of `c3OkDF`. -/
def c3OutDF : DFrame := DFrame.mk
  [("id_viaje", [PyVal.str "V001"]),
   ("fecha_viaje", [PyVal.str "2024-01-15"]),
   ("hora_salida_programada", [PyVal.str "08:00"]),
   ("hora_llegada_real", [PyVal.str "09:10"]),
   ("origen_ciudad", [PyVal.str "Madrid"]),
   ("destino_ciudad", [PyVal.str "Sevilla"]),
   ("pais_operacion", [PyVal.str "España"]),
   ("numero_viajeros", [PyVal.int 30]),
   ("distancia_km", [PyVal.float (PyFloat.finite 120)]),
   ("tiempo_viaje_minutos", [PyVal.int 50]),
   ("tarifa_media_por_viajero_eur", [PyVal.float (PyFloat.finite (25 / 2))]),
   ("marca_autocar", [PyVal.str "Mercedes"]),
   ("modelo_autocar", [PyVal.str "N/A"]),
   ("matricula_autocar", [PyVal.str "1234ABC"]),
   ("tipo_servicio", [PyVal.str "Regular"]),
   ("incidencia_averia", [PyVal.bool false]),
   ("descripcion_averia", [PyVal.str "Sin Avería"]),
   ("costo_averia_eur", [PyVal.float (PyFloat.finite 0)]),
   ("puntuacion_cliente", [PyVal.int 4]),
   ("combustible_consumido_litros", [PyVal.float (PyFloat.finite 80)]),
   ("id_conductor", [PyVal.str "D01"]),
   ("edad_conductor", [PyVal.int 45]),
   ("retraso_minutos", [PyVal.int 20]),
   ("velocidad_media_kmh", [PyVal.float (PyFloat.finite 144)])]

/-- Like `c3OkDF` but with a non-numeric `distancia_km` value. -/
def c3BadDF : DFrame := DFrame.mk
  [("id_viaje", [PyVal.str "V001"]),
   ("fecha_viaje", [PyVal.str "2024-01-15"]),
   ("hora_salida_programada", [PyVal.str "08:00"]),
   ("hora_llegada_real", [PyVal.str "09:10"]),
   ("origen_ciudad", [PyVal.str "madrid"]),
   ("destino_ciudad", [PyVal.str "sevilla"]),
   ("pais_operacion", [PyVal.str "ES"]),
   ("numero_viajeros", [PyVal.int 30]),
   ("distancia_km", [PyVal.str "abc"]),
   ("tiempo_viaje_minutos", [PyVal.int 50]),
   ("tarifa_media_por_viajero_eur", [PyVal.str "12,5"]),
   ("marca_autocar", [PyVal.str "mercedes"]),
   ("modelo_autocar", [PyVal.none]),
   ("matricula_autocar", [PyVal.str "1234ABC"]),
   ("tipo_servicio", [PyVal.str "regular"]),
   ("incidencia_averia", [PyVal.bool false]),
   ("descripcion_averia", [PyVal.none]),
   ("costo_averia_eur", [PyVal.none]),
   ("puntuacion_cliente", [PyVal.int 4]),
   ("combustible_consumido_litros", [PyVal.float (PyFloat.finite 80)]),
   ("id_conductor", [PyVal.str "D01"]),
   ("edad_conductor", [PyVal.int 45])]

/-- A record set missing the required `id_viaje` column. -/
def c3MissingDF : DFrame := DFrame.mk
  [("fecha_viaje", [PyVal.str "2024-01-15"])]

/-- C3 counterexample: a record set containing every required source field
whose transformation nevertheless fails fatally (a non-numeric
`distancia_km` makes `astype(float)` raise), so field presence alone does
not guarantee an output. -/
theorem C3_counterexample :
    (∀ c ∈ requiredSourceCols, c ∈ dfKeys c3BadDF) ∧
    etl_transform c3BadDF = Except.error "could not convert string to float: abc" := by
  exact ⟨by decide, by with_unfolding_all decide⟩

/-- C3 amended: whenever the pipeline produces an output record set, that
set has exactly the 24 schema fields in the fixed order, the record count
is preserved, and every required source field was present in the input; a
record set missing any required source field always fails fatally (the
KeyError or column access is re-raised), producing no output.  Field
presence alone does not guarantee success: a value that fails a type
coercion also aborts the batch. -/
theorem C3_schema_count_and_missing_fatal :
    (∀ (df out : DFrame) (n : Nat), etl_transform df = Except.ok out →
      dfKeys out = BQ_SCHEMA_COLUMNS ∧
      (uniformLen df n → uniformLen out n) ∧
      (∀ c ∈ requiredSourceCols, c ∈ dfKeys df)) ∧
    (∀ df : DFrame, (∃ c, c ∈ requiredSourceCols ∧ ¬c ∈ dfKeys df) →
      ∃ e, etl_transform df = Except.error e) := by
  constructor
  · intro df out n h
    obtain ⟨ha, hb, hc⟩ := etl_transform_ok_facts h
    exact ⟨ha, hb n, hc⟩
  · intro df ⟨c, hc, hnc⟩
    cases hE : etl_transform df with
    | error e => exact ⟨e, rfl⟩
    | ok out => exact absurd ((etl_transform_ok_facts hE).2.2 c hc) hnc

/-- C3 witness: on the concrete valid one-row record set the pipeline
succeeds with the 24 schema columns in order and one row per column, and on
a record set missing `id_viaje` it fails fatally. -/
theorem C3_schema_count_and_missing_fatal_witness :
    (dfKeys c3OutDF = BQ_SCHEMA_COLUMNS ∧
     (uniformLen c3OkDF 1 → uniformLen c3OutDF 1)) ∧
    (∃ e, etl_transform c3MissingDF = Except.error e) := by
  constructor
  · have h := (C3_schema_count_and_missing_fatal.1 c3OkDF c3OutDF 1
      (by with_unfolding_all decide))
    exact ⟨h.1, h.2.1⟩
  · exact C3_schema_count_and_missing_fatal.2 c3MissingDF ⟨"id_viaje", by decide, by decide⟩

/-- The three external side effects of a successful invocation, in order:
read the source object, write the archive CSV, load it into the analytical
table. -/
inductive EtlAction where
  | extract
  | archiveWrite
  | bqLoad
deriving DecidableEq

/-- The trigger request: whether the body parsed as JSON, and the parsed
event dictionary. -/
structure HttpRequest where
  isJson : Bool
  eventData : List (String × PyVal)
deriving DecidableEq

/-- Python `dict.get(k)`: the value when the key is present, None
otherwise. -/
def dictGet (d : List (String × PyVal)) (k : String) : Option PyVal :=
  match d with
  | [] => Option.none
  | (k2, v) :: rest => if k2 = k then some v else dictGet rest k

/-- Python truthiness of a value (`not x` in the guard): None, False, zero
and the empty string are falsy; NaN and infinities are truthy. -/
def pyTruthy (v : PyVal) : Bool :=
  match v with
  | PyVal.none => false
  | PyVal.bool b => b
  | PyVal.int n => decide (n ≠ 0)
  | PyVal.float (PyFloat.finite q) => decide (q ≠ 0)
  | PyVal.float _ => true
  | PyVal.str s => !s.data.isEmpty

/-- Truthiness of the result of `dict.get`: a missing key yields None, which is
falsy. -/
def truthyOpt (o : Option PyVal) : Bool :=
  match o with
  | some v => pyTruthy v
  | _ => false

/-- Python `==` between the result of `dict.get` and a configured string: values
of any other type compare unequal rather than raising. -/
def pyEqStrOpt (o : Option PyVal) (s : String) : Bool :=
  match o with
  | some (PyVal.str t) => t = s
  | _ => false

/-- Whether the pattern list is a prefix of the other list. -/
def listStartsWith : List Char → List Char → Bool
  | [], _ => true
  | _ :: _, [] => false
  | a :: as, b :: bs => a = b && listStartsWith as bs

/-- Python `str.endswith` (kernel-reducible model of String.endsWith). -/
def strEndsWith (s suffix : String) : Bool :=
  listStartsWith suffix.data.reverse s.data.reverse

/-- The extract / archive / load section (src/main.py lines 83-255) with
the two storage collaborators and the analytical load abstracted by success
flags: each stage is attempted in order, a failure is logged and re-raised
(modelled as `Except.error`), and only a fully successful run returns
("OK", 200). -/
def runPipelineEffects (eOk tOk aOk lOk : Bool) :
    Except String (String × Nat) × List EtlAction :=
  if eOk = false then
    (Except.error "extraction failed", [EtlAction.extract])
  else if tOk = false then
    (Except.error "transformation failed", [EtlAction.extract])
  else if aOk = false then
    (Except.error "archive upload failed", [EtlAction.extract, EtlAction.archiveWrite])
  else if lOk = false then
    (Except.error "BigQuery load failed",
     [EtlAction.extract, EtlAction.archiveWrite, EtlAction.bqLoad])
  else
    (Except.ok ("OK", 200), [EtlAction.extract, EtlAction.archiveWrite, EtlAction.bqLoad])

/-- The event-shape guards of `etl_transportation_data` (src/main.py lines
58-79) followed by the processing stages.  `rawBucketName` is the
configured source container (RAW_BUCKET_NAME).  The pair returned is the
HTTP response (or the re-raised exception) together with the external
actions attempted. -/
def etl_transportation_data (rawBucketName : String) (req : HttpRequest)
    (eOk tOk aOk lOk : Bool) : Except String (String × Nat) × List EtlAction :=
  if req.isJson = false then
    (Except.ok ("Not JSON", 400), [])
  else
    let fileName := dictGet req.eventData "name"
    let bucketName := dictGet req.eventData "bucket"
    if truthyOpt fileName = false ∨ truthyOpt bucketName = false then
      (Except.ok ("Missing file/bucket info", 400), [])
    else
      match fileName with
      | some (PyVal.str f) =>
        if strEndsWith f ".json" = false then
          (Except.ok ("Not a JSON file", 200), [])
        else if pyEqStrOpt bucketName rawBucketName = false then
          (Except.ok ("Unexpected bucket", 200), [])
        else
          runPipelineEffects eOk tOk aOk lOk
      | _ => (Except.error "AttributeError: endswith requires a str", [])

lemma str_ne_empty_data {f : String} (h : f ≠ "") : f.data.isEmpty = false := by
  cases f with
  | mk l =>
    cases l with
    | nil => exact absurd rfl h
    | cons c cs => rfl

/-- C6: the trigger handler returns ("Not JSON", 400) for a non-JSON body,
("Missing file/bucket info", 400) when name or bucket is missing or falsy,
("Not a JSON file", 200) when the file name does not end in .json,
("Unexpected bucket", 200) when the bucket differs from the configured
source bucket, and ("OK", 200) on success; on every reject or skip path no
extraction, archive write or analytical load is attempted. -/
theorem C6_handler_responses (raw : String) (req : HttpRequest)
    (eOk tOk aOk lOk : Bool) :
    (req.isJson = false →
      etl_transportation_data raw req eOk tOk aOk lOk =
        (Except.ok ("Not JSON", 400), [])) ∧
    (req.isJson = true →
      (truthyOpt (dictGet req.eventData "name") = false ∨
       truthyOpt (dictGet req.eventData "bucket") = false) →
      etl_transportation_data raw req eOk tOk aOk lOk =
        (Except.ok ("Missing file/bucket info", 400), [])) ∧
    (∀ f b, req.isJson = true →
      dictGet req.eventData "name" = some (PyVal.str f) →
      dictGet req.eventData "bucket" = some b → pyTruthy b = true →
      f ≠ "" → strEndsWith f ".json" = false →
      etl_transportation_data raw req eOk tOk aOk lOk =
        (Except.ok ("Not a JSON file", 200), [])) ∧
    (∀ f b, req.isJson = true →
      dictGet req.eventData "name" = some (PyVal.str f) →
      dictGet req.eventData "bucket" = some b → pyTruthy b = true →
      f ≠ "" → strEndsWith f ".json" = true →
      pyEqStrOpt (some b) raw = false →
      etl_transportation_data raw req eOk tOk aOk lOk =
        (Except.ok ("Unexpected bucket", 200), [])) ∧
    (∀ f b, req.isJson = true →
      dictGet req.eventData "name" = some (PyVal.str f) →
      dictGet req.eventData "bucket" = some b → pyTruthy b = true →
      f ≠ "" → strEndsWith f ".json" = true →
      pyEqStrOpt (some b) raw = true →
      eOk = true → tOk = true → aOk = true → lOk = true →
      etl_transportation_data raw req eOk tOk aOk lOk =
        (Except.ok ("OK", 200),
         [EtlAction.extract, EtlAction.archiveWrite, EtlAction.bqLoad])) := by
  refine ⟨?_, ?_, ?_, ?_, ?_⟩
  · intro h
    simp [etl_transportation_data, h]
  · intro hj h
    rcases h with h | h <;> simp [etl_transportation_data, hj, h]
  · intro f b hj hn hnb hbt hf he
    have hft : pyTruthy (PyVal.str f) = true := by
      simp [pyTruthy, str_ne_empty_data hf]
    simp [etl_transportation_data, hj, hn, hnb, he, truthyOpt, hft, hbt]
  · intro f b hj hn hnb hbt hf he hbk
    have hft : pyTruthy (PyVal.str f) = true := by
      simp [pyTruthy, str_ne_empty_data hf]
    simp [etl_transportation_data, hj, hn, hnb, he, hbk, truthyOpt, hft, hbt]
  · intro f b hj hn hnb hbt hf he hbk he2 ht ha hl
    have hft : pyTruthy (PyVal.str f) = true := by
      simp [pyTruthy, str_ne_empty_data hf]
    simp [etl_transportation_data, hj, hn, hnb, he, hbk, truthyOpt, hft, hbt,
      runPipelineEffects, he2, ht, ha, hl]

/-- C6 witness: concrete events exercising the success path, the non-json
file skip and the non-JSON body reject. -/
theorem C6_handler_responses_witness :
    etl_transportation_data "raw"
      (HttpRequest.mk true [("name", PyVal.str "d.json"), ("bucket", PyVal.str "raw")])
      true true true true =
      (Except.ok ("OK", 200),
       [EtlAction.extract, EtlAction.archiveWrite, EtlAction.bqLoad]) ∧
    etl_transportation_data "raw"
      (HttpRequest.mk true [("name", PyVal.str "data.txt"), ("bucket", PyVal.str "raw")])
      true true true true =
      (Except.ok ("Not a JSON file", 200), []) ∧
    etl_transportation_data "raw" (HttpRequest.mk false []) true true true true =
      (Except.ok ("Not JSON", 400), []) := by
  refine ⟨?_, ?_, ?_⟩
  · exact (C6_handler_responses "raw"
      (HttpRequest.mk true [("name", PyVal.str "d.json"), ("bucket", PyVal.str "raw")])
      true true true true).2.2.2.2 "d.json" (PyVal.str "raw") rfl (by decide) (by decide)
      (by decide) (by decide) (by decide) (by decide) rfl rfl rfl rfl
  · exact (C6_handler_responses "raw"
      (HttpRequest.mk true [("name", PyVal.str "data.txt"), ("bucket", PyVal.str "raw")])
      true true true true).2.2.1 "data.txt" (PyVal.str "raw") rfl (by decide) (by decide)
      (by decide) (by decide) (by decide)
  · exact (C6_handler_responses "raw" (HttpRequest.mk false []) true true true true).1 rfl

/-- C10: a body that is valid JSON but carries an empty string under name
or bucket is treated like a missing key — the guard tests truthiness, the
empty string is falsy, and the handler returns
("Missing file/bucket info", 400) with no further processing. -/
theorem C10_empty_name_or_bucket (raw : String) (req : HttpRequest)
    (eOk tOk aOk lOk : Bool) (hj : req.isJson = true)
    (h : dictGet req.eventData "name" = some (PyVal.str "") ∨
         dictGet req.eventData "bucket" = some (PyVal.str "")) :
    etl_transportation_data raw req eOk tOk aOk lOk =
      (Except.ok ("Missing file/bucket info", 400), []) := by
  rcases h with h | h <;>
    simp [etl_transportation_data, hj, h, truthyOpt, pyTruthy]

/-- C10 witness: a concrete event with an empty name and a non-empty
bucket is rejected with the missing-info response and no actions. -/
theorem C10_empty_name_or_bucket_witness :
    etl_transportation_data "raw"
      (HttpRequest.mk true [("name", PyVal.str ""), ("bucket", PyVal.str "raw")])
      true true true true =
      (Except.ok ("Missing file/bucket info", 400), []) :=
  C10_empty_name_or_bucket "raw"
    (HttpRequest.mk true [("name", PyVal.str ""), ("bucket", PyVal.str "raw")])
    true true true true rfl (Or.inl (by decide))
